import Mathlib

/-!
Shallow embedding of the garmin-backend repository (src/app.py, src/routes.py).

The repository is a Flask HTTP facade over a sqlite health database.  We embed:
  - the time normalizer `_to_seconds` (pandas `to_timedelta(..., errors="coerce")
    .dt.total_seconds()`), restricted to the `HH:MM:SS`-shaped duration strings
    this database stores (anything else coerces to null);
  - the schema introspector `_table_exists` / `_get_columns`;
  - the five metric readers `fetch_daily_summary`, `fetch_sleep`, `fetch_steps`,
    `fetch_stress`, `fetch_exercise` (SQL is embedded as filter / sort / take /
    projection over explicit row lists; a query whose table or referenced
    column is absent from the schema fails, modelling the sqlite error that
    `pd.read_sql` would raise);
  - the sync invoker `_run_garmindb` and the `POST /api/update` handler;
  - the `DELETE /api/erase` handlers of both app.py and routes.py;
  - the `GET /api/config` password redaction.
-/

/-! ## Time normalizer

`_to_seconds(series)` is `pd.to_timedelta(series, errors="coerce").dt.total_seconds()`
(app.py line 102, and the local `to_seconds` in `fetch_exercise`, line 227).
On a cell holding a string `H:MM:SS` with numeric fields it yields
H*3600 + M*60 + S; on SQL NULL, the empty string or any unparsable string it
yields null (`errors="coerce"`), never an error. -/

/-- Numeric value of a digit character (its code point minus 48). -/
def charDigitVal (c : Char) : Nat := c.toNat - 48

/-- Value of a big-endian digit string. -/
def charsToNat (cs : List Char) : Nat := cs.foldl (fun a c => 10 * a + charDigitVal c) 0

/-- Parse a nonempty all-digit character list; anything else is `none`. -/
def parseNatChars (cs : List Char) : Option Nat :=
  if cs.isEmpty then none
  else if cs.all Char.isDigit then some (charsToNat cs)
  else none

/-- Split a character list on the colon separator (semantics of splitting a
duration string into its `H`, `M`, `S` fields). -/
def splitOnColon : List Char → List (List Char)
  | [] => [[]]
  | c :: cs =>
    if c = ':' then [] :: splitOnColon cs
    else
      match splitOnColon cs with
      | [] => [[c]]
      | g :: gs => (c :: g) :: gs

/-- Model of `pd.to_timedelta(s, errors="coerce")` on one cell, restricted to the
colon-separated duration shape: three numeric fields `H:M:S` give the exact
second count, everything else coerces to null. -/
def parseHMS (s : String) : Option Nat :=
  match splitOnColon s.toList with
  | [hs, ms, ss] =>
    match parseNatChars hs, parseNatChars ms, parseNatChars ss with
    | some h, some m, some sec => some (h * 3600 + m * 60 + sec)
    | _, _, _ => none
  | _ => none

/-- Model of `_to_seconds` on one cell: a SQL NULL cell is already null (`NaT`), a
string cell is parsed, unparsable coerces to null. -/
def durSeconds (v : Option String) : Option Nat := v.bind parseHMS

/-- Model of `.round(2)`: round to 2 decimal places (ties toward the larger value;
the float tie cases never arise exactly). -/
def round2 (q : ℚ) : ℚ := (round (q * 100) : ℤ) / 100

/-- Model of `(secs / 3600.0).round(2)` with null (`NaN`) propagating through the
division and the rounding. -/
def durHours (v : Option String) : Option ℚ :=
  (durSeconds v).map (fun n => round2 ((n : ℚ) / 3600))

/-! Canonical decimal rendering of a natural number, used to quantify over
all `HH:MM:SS` duration strings in the statements below. -/

/-- Big-endian digit characters of `n` (empty for 0). -/
def natChars (n : Nat) : List Char := ((Nat.digits 10 n).map Nat.digitChar).reverse

/-- Decimal rendering of `n` (0 renders as "0"). -/
def natChars0 (n : Nat) : List Char := if n = 0 then ['0'] else natChars n

/-- Two-digit zero-padded rendering, the `MM` / `SS` fields of `HH:MM:SS`. -/
def pad2 (n : Nat) : List Char := if n < 10 then '0' :: natChars0 n else natChars0 n

/-- The duration string `HH:MM:SS` for hours `h`, minutes `m`, seconds `s`. -/
def fmtHMS (h m s : Nat) : String :=
  String.mk (natChars0 h ++ ':' :: (pad2 m ++ ':' :: pad2 s))

/-! Roundtrip lemmas: parsing the rendered duration string recovers the value. -/

theorem charDigitVal_digitChar : ∀ d, d < 10 → charDigitVal (Nat.digitChar d) = d := by
  decide

theorem isDigit_digitChar : ∀ d, d < 10 → (Nat.digitChar d).isDigit = true := by
  decide

theorem digitChar_ne_colon : ∀ d, d < 10 → Nat.digitChar d ≠ ':' := by
  decide

theorem foldl_digits_reverse (L : List Nat) (a : Nat) (hL : ∀ d ∈ L, d < 10) :
    List.foldl (fun x c => 10 * x + charDigitVal c) a ((L.map Nat.digitChar).reverse) =
      a * 10 ^ L.length + Nat.ofDigits 10 L := by
  induction L generalizing a with
  | nil => simp [Nat.ofDigits]
  | cons d L ih =>
    have hd : d < 10 := hL d (List.mem_cons_self d L)
    have hrest : ∀ x ∈ L, x < 10 := fun x hx => hL x (List.mem_cons_of_mem d hx)
    simp only [List.map_cons, List.reverse_cons, List.foldl_append, List.foldl_cons,
      List.foldl_nil, ih a hrest, charDigitVal_digitChar d hd, Nat.ofDigits_cons,
      List.length_cons]
    ring

theorem charsToNat_natChars (n : Nat) : charsToNat (natChars n) = n := by
  have h := foldl_digits_reverse (Nat.digits 10 n) 0
    (fun d hd => Nat.digits_lt_base (by norm_num) hd)
  simpa [charsToNat, natChars, Nat.ofDigits_digits] using h

theorem natChars_all_digits (n : Nat) : (natChars n).all Char.isDigit = true := by
  simp only [natChars, List.all_eq_true, List.mem_reverse, List.mem_map]
  rintro c ⟨d, hd, rfl⟩
  exact isDigit_digitChar d (Nat.digits_lt_base (by norm_num) hd)

theorem natChars0_all_digits (n : Nat) : (natChars0 n).all Char.isDigit = true := by
  unfold natChars0
  split
  · decide
  · exact natChars_all_digits n

theorem natChars0_ne_nil (n : Nat) : (natChars0 n).isEmpty = false := by
  unfold natChars0
  split
  · decide
  · next h =>
    have : Nat.digits 10 n ≠ [] := (Nat.digits_ne_nil_iff_ne_zero).2 h
    simp [natChars, List.isEmpty_iff, this]

theorem charsToNat_natChars0 (n : Nat) : charsToNat (natChars0 n) = n := by
  unfold natChars0
  split
  · next h => subst h; decide
  · exact charsToNat_natChars n

theorem parseNatChars_natChars0 (n : Nat) : parseNatChars (natChars0 n) = some n := by
  simp [parseNatChars, natChars0_ne_nil, natChars0_all_digits, charsToNat_natChars0]

theorem charsToNat_cons_zero (cs : List Char) : charsToNat ('0' :: cs) = charsToNat cs := by
  have h0 : charDigitVal '0' = 0 := rfl
  simp [charsToNat, List.foldl_cons, h0]

theorem parseNatChars_pad2 (n : Nat) : parseNatChars (pad2 n) = some n := by
  unfold pad2
  split
  · have h0 : Char.isDigit '0' = true := rfl
    simp [parseNatChars, List.isEmpty_cons, h0, natChars0_all_digits, charsToNat_cons_zero,
      charsToNat_natChars0]
  · exact parseNatChars_natChars0 n

theorem colon_notMem_natChars0 (n : Nat) : ':' ∉ natChars0 n := by
  unfold natChars0
  split
  · decide
  · simp only [natChars, List.mem_reverse, List.mem_map]
    rintro ⟨d, hd, hc⟩
    exact digitChar_ne_colon d (Nat.digits_lt_base (by norm_num) hd) hc

theorem colon_notMem_pad2 (n : Nat) : ':' ∉ pad2 n := by
  unfold pad2
  split
  · intro h
    rcases List.mem_cons.1 h with h0 | h0
    · exact absurd h0 (by decide)
    · exact colon_notMem_natChars0 n h0
  · exact colon_notMem_natChars0 n

theorem splitOnColon_no_colon (cs : List Char) (h : ':' ∉ cs) : splitOnColon cs = [cs] := by
  induction cs with
  | nil => rfl
  | cons c cs ih =>
    have hc : ¬ c = ':' := fun hc => h (hc ▸ List.mem_cons_self c cs)
    have hcs : ':' ∉ cs := fun hx => h (List.mem_cons_of_mem c hx)
    simp [splitOnColon, hc, ih hcs]

theorem splitOnColon_append (cs rest : List Char) (h : ':' ∉ cs) :
    splitOnColon (cs ++ ':' :: rest) = cs :: splitOnColon rest := by
  induction cs with
  | nil => simp [splitOnColon]
  | cons c cs ih =>
    have hc : ¬ c = ':' := fun hc => h (hc ▸ List.mem_cons_self c cs)
    have hcs : ':' ∉ cs := fun hx => h (List.mem_cons_of_mem c hx)
    show splitOnColon (c :: (cs ++ ':' :: rest)) = (c :: cs) :: splitOnColon rest
    rw [splitOnColon, if_neg hc, ih hcs]

theorem parseHMS_fmtHMS (h m s : Nat) :
    parseHMS (fmtHMS h m s) = some (h * 3600 + m * 60 + s) := by
  have htl : (fmtHMS h m s).toList = natChars0 h ++ ':' :: (pad2 m ++ ':' :: pad2 s) := rfl
  have h1 : splitOnColon ((fmtHMS h m s).toList) =
      natChars0 h :: splitOnColon (pad2 m ++ ':' :: pad2 s) := by
    rw [htl]; exact splitOnColon_append _ _ (colon_notMem_natChars0 h)
  have h2 : splitOnColon (pad2 m ++ ':' :: pad2 s) = pad2 m :: splitOnColon (pad2 s) :=
    splitOnColon_append _ _ (colon_notMem_pad2 m)
  have h3 : splitOnColon (pad2 s) = [pad2 s] :=
    splitOnColon_no_colon _ (colon_notMem_pad2 s)
  unfold parseHMS
  rw [h1, h2, h3]
  simp [parseNatChars_natChars0, parseNatChars_pad2]

/-! ## Data store model

A sqlite connection is modelled by the value of the database: the list of
tables recorded in sqlite_master together with their column lists
(`schema`), and the stored rows of the three tables the readers touch.
Row fields are `Option`-typed to model nullable SQL columns.  When `schema`
says a table or column is absent, queries referencing it fail, and the
corresponding row list is irrelevant. -/

/-- A row of the daily_summary table. -/
structure DailyRow where
  day : String
  steps : Option Int
  rhr : Option Int
  stress_avg : Option ℚ
  step_goal : Option Int
  moderate_activity_time : Option String
  vigorous_activity_time : Option String
  intensity_time_goal : Option String
  distance : Option ℚ
  calories_active : Option Int
  calories_total : Option Int
deriving Repr, DecidableEq

/-- A row of the sleep table (durations stored as HH:MM:SS strings). -/
structure SleepRow where
  day : String
  total_sleep : Option String
  deep_sleep : Option String
  light_sleep : Option String
  rem_sleep : Option String
  awake : Option String
  avg_spo2 : Option ℚ
  avg_rr : Option ℚ
  avg_stress : Option ℚ
  score : Option Int
  qualifier : Option String
deriving Repr, DecidableEq

/-- A row of the sleep_summary table. -/
structure SleepSummaryRow where
  day : String
  sleep_seconds : Option Int
deriving Repr, DecidableEq

/-- The state of the sqlite database file. -/
structure DB where
  schema : List (String × List String)
  daily_summary : List DailyRow
  sleep : List SleepRow
  sleep_summary : List SleepSummaryRow

/-! ## Schema introspector (app.py lines 44-55) -/

/-- Model of `_table_exists`: `SELECT 1 FROM sqlite_master WHERE type=table AND name=?`
has at least one row. -/
def _table_exists (db : DB) (name : String) : Bool :=
  (db.schema.lookup name).isSome

/-- Model of `PRAGMA table_info(table)` read into a dataframe and projected to its
`name` column: on a known table the column list, on an unknown table the
dataframe is empty and the projection raises a KeyError. -/
def pragmaTableInfo (db : DB) (table : String) : Except String (List String) :=
  match db.schema.lookup table with
  | some cols => .ok cols
  | none => .error "KeyError: name"

/-- Model of `_get_columns`: the PRAGMA projection wrapped in try/except, any failure
returning the empty list. -/
def _get_columns (db : DB) (table : String) : List String :=
  match pragmaTableInfo db table with
  | .ok cols => cols
  | .error _ => []

/-- Model of `_col_exists`: membership in `_get_columns`. -/
def _col_exists (db : DB) (table : String) (col : String) : Bool :=
  (_get_columns db table).contains col

/-! ## SQL evaluation helpers -/

/-- Model of `ORDER BY key DESC LIMIT n` applied to a row list. -/
def sqlWindow {α : Type} (key : α → String) (n : Nat) (l : List α) : List α :=
  (l.mergeSort (fun a b => decide (key b ≤ key a))).take n

/-! ## Metric readers (app.py lines 71-248)

Each reader returns `Except String records`: `.error` models the reader
raising (a RuntimeError of its own, or the sqlite error that `pd.read_sql`
raises when the query references an absent table or column), which the HTTP
layer turns into a 500 response. -/

/-- Output record of `fetch_daily_summary`. -/
structure DailySummaryRecord where
  date : String
  steps : Option Int
  restingHeartRate : Option Int
  sleepSeconds : Option Int
deriving Repr, DecidableEq

/-- Model of `LEFT JOIN sleep_summary ss ON ss.day = ds.day`: each daily row is paired
with the sleep_seconds of every matching sleep_summary row, or with NULL when
no row matches. -/
def leftJoinSleep (ds : List DailyRow) (ss : List SleepSummaryRow) :
    List (DailyRow × Option Int) :=
  ds.flatMap fun d =>
    match ss.filter (fun s => s.day == d.day) with
    | [] => [(d, none)]
    | ms => ms.map fun s => (d, s.sleep_seconds)

/-- Model of `fetch_daily_summary` (app.py line 71): pick the rich query with the
sleep_summary join when that table and its sleep_seconds column exist, else
the fallback query with `NULL AS sleepSeconds`; either query needs the
daily_summary table with its day, steps and rhr columns (and the join needs
sleep_summary.day), and is ordered by day descending, limited to 30 rows. -/
def fetch_daily_summary (db : DB) : Except String (List DailySummaryRecord) :=
  if _table_exists db "sleep_summary" && _col_exists db "sleep_summary" "sleep_seconds" then
    if _table_exists db "daily_summary" && _col_exists db "daily_summary" "day" &&
        _col_exists db "daily_summary" "steps" && _col_exists db "daily_summary" "rhr" &&
        _col_exists db "sleep_summary" "day" then
      .ok ((sqlWindow (fun p => p.1.day) 30 (leftJoinSleep db.daily_summary db.sleep_summary)).map
        fun p => { date := p.1.day, steps := p.1.steps, restingHeartRate := p.1.rhr,
                   sleepSeconds := p.2 })
    else .error "no such table or column: daily_summary query"
  else
    if _table_exists db "daily_summary" && _col_exists db "daily_summary" "day" &&
        _col_exists db "daily_summary" "steps" && _col_exists db "daily_summary" "rhr" then
      .ok ((sqlWindow (fun r => r.day) 30 db.daily_summary).map
        fun r => { date := r.day, steps := r.steps, restingHeartRate := r.rhr,
                   sleepSeconds := none })
    else .error "no such table or column: daily_summary query"

/-- Output record of `fetch_sleep`: raw duration strings plus derived seconds
and hours for the five duration columns. -/
structure SleepRecord where
  date : String
  total_sleep : Option String
  total_sleep_seconds : Option Nat
  total_sleep_hours : Option ℚ
  deep_sleep : Option String
  deep_sleep_seconds : Option Nat
  deep_sleep_hours : Option ℚ
  light_sleep : Option String
  light_sleep_seconds : Option Nat
  light_sleep_hours : Option ℚ
  rem_sleep : Option String
  rem_sleep_seconds : Option Nat
  rem_sleep_hours : Option ℚ
  awake : Option String
  awake_seconds : Option Nat
  awake_hours : Option ℚ
  avg_spo2 : Option ℚ
  avg_rr : Option ℚ
  avg_stress : Option ℚ
  score : Option Int
  qualifier : Option String
deriving Repr, DecidableEq

/-- Per-row post-processing of `fetch_sleep` (app.py lines 132-139): each
duration column gets a `_seconds` column via `_to_seconds` and an `_hours`
column via `(secs / 3600.0).round(2)`, nulls propagating; `day` is renamed to
`date`. -/
def sleepRecordOf (r : SleepRow) : SleepRecord :=
  { date := r.day
    total_sleep := r.total_sleep
    total_sleep_seconds := durSeconds r.total_sleep
    total_sleep_hours := durHours r.total_sleep
    deep_sleep := r.deep_sleep
    deep_sleep_seconds := durSeconds r.deep_sleep
    deep_sleep_hours := durHours r.deep_sleep
    light_sleep := r.light_sleep
    light_sleep_seconds := durSeconds r.light_sleep
    light_sleep_hours := durHours r.light_sleep
    rem_sleep := r.rem_sleep
    rem_sleep_seconds := durSeconds r.rem_sleep
    rem_sleep_hours := durHours r.rem_sleep
    awake := r.awake
    awake_seconds := durSeconds r.awake
    awake_hours := durHours r.awake
    avg_spo2 := r.avg_spo2
    avg_rr := r.avg_rr
    avg_stress := r.avg_stress
    score := r.score
    qualifier := r.qualifier }

/-- The eleven columns the sleep query selects. -/
def sleepQueryCols : List String :=
  ["day", "total_sleep", "deep_sleep", "light_sleep", "rem_sleep", "awake",
   "avg_spo2", "avg_rr", "avg_stress", "score", "qualifier"]

/-- Model of `fetch_sleep` (app.py line 105): a missing sleep table raises a
RuntimeError; otherwise select the eleven columns (the query fails if one is
absent), ordered by day descending, limited to `days` rows, then normalize
the duration columns row by row. -/
def fetch_sleep (db : DB) (days : Nat := 30) : Except String (List SleepRecord) :=
  if _table_exists db "sleep" then
    if sleepQueryCols.all (fun c => _col_exists db "sleep" c) then
      .ok ((sqlWindow (fun r => r.day) days db.sleep).map sleepRecordOf)
    else .error "no such column: sleep query"
  else
    .error "No sleep table found. Expected columns: day, total_sleep, deep_sleep, light_sleep, rem_sleep, awake"

/-- Output record of `fetch_steps`. -/
structure StepsRecord where
  date : String
  steps : Option Int
  step_goal : Option Int
deriving Repr, DecidableEq

/-- Model of `fetch_steps` (app.py line 154): requires the daily_summary table with
day and steps columns; selects step_goal when present, `NULL AS step_goal`
otherwise; ordered by day descending, limited to `days` rows. -/
def fetch_steps (db : DB) (days : Nat := 30) : Except String (List StepsRecord) :=
  if ¬ _table_exists db "daily_summary" then .error "daily_summary table not found"
  else
    let cols := _get_columns db "daily_summary"
    if ¬ (cols.contains "day" && cols.contains "steps") then
      .error "Missing columns in daily_summary"
    else
      .ok ((sqlWindow (fun r => r.day) days db.daily_summary).map
        fun r => { date := r.day, steps := r.steps,
                   step_goal := if cols.contains "step_goal" then r.step_goal else none })

/-- Output record of `fetch_stress`. -/
structure StressRecord where
  date : String
  stress_avg : Option ℚ
deriving Repr, DecidableEq

/-- Model of `fetch_stress` (app.py line 177): requires the daily_summary table with
day and stress_avg columns; `WHERE stress_avg IS NOT NULL` filters the rows,
then order by day descending and limit to `days` rows. -/
def fetch_stress (db : DB) (days : Nat := 30) : Except String (List StressRecord) :=
  if ¬ _table_exists db "daily_summary" then .error "daily_summary table not found"
  else
    let cols := _get_columns db "daily_summary"
    if ¬ (cols.contains "stress_avg" && cols.contains "day") then
      .error "daily_summary missing stress_avg or day"
    else
      .ok ((sqlWindow (fun r => r.day) days
              (db.daily_summary.filter (fun r => r.stress_avg.isSome))).map
        fun r => { date := r.day, stress_avg := r.stress_avg })

/-- Output record of `fetch_exercise`. -/
structure ExerciseRecord where
  date : String
  moderate_activity_time : Option String
  vigorous_activity_time : Option String
  intensity_time_goal : Option String
  moderate_activity_seconds : Option Nat
  vigorous_activity_seconds : Option Nat
  intensity_time_goal_seconds : Option Nat
  total_activity_seconds : Option Nat
  distance : Option ℚ
  calories_active : Option Int
  calories_total : Option Int
deriving Repr, DecidableEq

/-- Per-row post-processing of `fetch_exercise` (app.py lines 227-237): the
three duration columns are normalized to seconds, and
`total_activity_seconds` is the sum of moderate and vigorous seconds with
nulls filled as 0 before summing, so it is itself never null. -/
def exerciseRecordOf (dist : Bool) (calAct : Bool) (calTot : Bool) (r : DailyRow) :
    ExerciseRecord :=
  { date := r.day
    moderate_activity_time := r.moderate_activity_time
    vigorous_activity_time := r.vigorous_activity_time
    intensity_time_goal := r.intensity_time_goal
    moderate_activity_seconds := durSeconds r.moderate_activity_time
    vigorous_activity_seconds := durSeconds r.vigorous_activity_time
    intensity_time_goal_seconds := durSeconds r.intensity_time_goal
    total_activity_seconds :=
      some ((durSeconds r.moderate_activity_time).getD 0 +
            (durSeconds r.vigorous_activity_time).getD 0)
    distance := if dist then r.distance else none
    calories_active := if calAct then r.calories_active else none
    calories_total := if calTot then r.calories_total else none }

/-- Model of `fetch_exercise` (app.py line 198): requires the daily_summary table with
day and the three duration columns; distance and the two calories columns are
selected when present and `NULL AS col` otherwise; ordered by day descending,
limited to `days` rows, then post-processed row by row. -/
def fetch_exercise (db : DB) (days : Nat := 30) : Except String (List ExerciseRecord) :=
  if ¬ _table_exists db "daily_summary" then .error "daily_summary table not found"
  else
    let cols := _get_columns db "daily_summary"
    if ¬ (cols.contains "day" && cols.contains "moderate_activity_time" &&
          cols.contains "vigorous_activity_time" && cols.contains "intensity_time_goal") then
      .error "daily_summary missing time columns"
    else
      .ok ((sqlWindow (fun r => r.day) days db.daily_summary).map
        (exerciseRecordOf (cols.contains "distance") (cols.contains "calories_active")
          (cols.contains "calories_total")))

/-! ## Sync invoker and POST /api/update (routes.py lines 29-53 and 125-129)

`subprocess.run` either raises (the executable cannot be started) or yields a
completed process with an exit code and captured output; the outcome of the
external process is a parameter of the embedding. -/

/-- A completed external process: exit code and captured output. -/
structure ProcResult where
  returncode : Int
  stdout : String
  stderr : String
deriving Repr, DecidableEq

/-- The SyncResult document `_run_garmindb` returns. -/
structure SyncResult where
  started_at : String
  ended_at : String
  duration_seconds : ℚ
  returncode : Int
  ok : Bool
  log : String
  stdout : String
  stderr : String
deriving Repr, DecidableEq

/-- Model of `_run_garmindb` on a completed process: packages the exit code and output
into a SyncResult, `ok` exactly when the exit code is 0. -/
def runGarmindb (started ended : String) (dur : ℚ) (logPath : String) (p : ProcResult) :
    SyncResult :=
  { started_at := started
    ended_at := ended
    duration_seconds := dur
    returncode := p.returncode
    ok := p.returncode == 0
    log := logPath
    stdout := p.stdout
    stderr := p.stderr }

/-- Body of the `POST /api/update` response: the SyncResult serialized as
JSON, or the generic error page Flask produces when the handler raises
(the subprocess could not be started at all). -/
inductive UpdateBody where
  | syncResult (r : SyncResult)
  | serverError (msg : String)
deriving Repr, DecidableEq

/-- Model of `update_garmin_data` (routes.py line 125): refresh the config, run the
sync, answer 200 when the result is ok and 500 otherwise with the SyncResult
as body; a launch failure propagates out of the handler as a 500 error page.
`launch` is the outcome of `subprocess.run`: a completed process, or the
exception message when the executable cannot be started. -/
def update_garmin_data (launch : Except String ProcResult)
    (started ended : String) (dur : ℚ) (logPath : String) : Nat × UpdateBody :=
  match launch with
  | .error e => (500, .serverError e)
  | .ok p =>
    let r := runGarmindb started ended dur logPath p
    (if r.ok then 200 else 500, .syncResult r)

/-! ## DELETE /api/erase

Two implementations exist: app.py line 318 clears every user table of the
database file, routes.py line 195 clears every entry under the data root.
Both first answer 503 when the target is absent, then 400 when the
confirmation flag is not exactly "true". -/

/-- Response body of the erase handlers. -/
inductive EraseBody where
  | err (msg : String)
  | manifestTables (tables : List String)
  | manifestPath (path : String)
deriving Repr, DecidableEq

/-- Model of `erase_data` (app.py line 318): the database file is `none` when absent,
otherwise the list of user tables with their rows.  Guards: 503 when the file
is absent, 400 when `confirm` is not exactly "true"; otherwise every table is
emptied (`DELETE FROM table`) and the manifest lists the cleared tables. -/
def erase_data (dbFile : Option (List (String × List DailyRow)))
    (confirm : Option String) :
    (Nat × EraseBody) × Option (List (String × List DailyRow)) :=
  match dbFile with
  | none => ((503, .err "Database not found"), none)
  | some tables =>
    if confirm ≠ some "true" then
      ((400, .err "You must pass confirm=true to erase data"), some tables)
    else
      ((200, .manifestTables (tables.map (fun t => t.1))),
       some (tables.map (fun t => (t.1, []))))

/-- Model of `erase_data` (routes.py line 195): the data root is `none` when absent,
otherwise the list of its entries; `garth` is whether the cached auth session
file exists.  Guards: 503 when the root is absent, 400 when `confirm` is not
exactly "true"; otherwise every entry under the root is removed and the
session file deleted. -/
def routes_erase_data (dataRoot : Option (List String)) (garth : Bool)
    (confirm : Option String) :
    (Nat × EraseBody) × Option (List String) × Bool :=
  match dataRoot with
  | none => ((503, .err "No HealthData folder found"), none, garth)
  | some entries =>
    if confirm ≠ some "true" then
      ((400, .err "You must pass confirm=true to erase all data"), some entries, garth)
    else
      ((200, .manifestPath "data_root"), some [], false)

/-! ## GET /api/config (routes.py lines 57-62) -/

/-- The credentials section of the config document; `none` in a field means
the key is absent. -/
structure Credentials where
  user : Option String
  password : Option String
  secure_password : Option String
  password_file : Option String
deriving Repr, DecidableEq

/-- The stored configuration document (the sections beyond credentials do not
participate in redaction and are abstracted as an opaque remainder string). -/
structure ConfigDoc where
  credentials : Option Credentials
  rest : String
deriving Repr, DecidableEq

/-- Model of `get_config` (routes.py line 57): read the stored document and blank the
password when the credentials section has one. -/
def get_config (cfg : ConfigDoc) : ConfigDoc :=
  match cfg.credentials with
  | some c =>
    if c.password.isSome then
      { cfg with credentials := some { c with password := some "" } }
    else cfg
  | none => cfg

/-! ## Generic facts about the SQL window -/

theorem sqlWindow_sorted {α : Type} (key : α → String) (n : Nat) (l : List α) :
    (sqlWindow key n l).Pairwise (fun a b => key b ≤ key a) := by
  have htrans : ∀ a b c : α, (fun x y => decide (key y ≤ key x)) a b = true →
      (fun x y => decide (key y ≤ key x)) b c = true →
      (fun x y => decide (key y ≤ key x)) a c = true := by
    intro a b c hab hbc
    simp only [decide_eq_true_eq] at hab hbc ⊢
    exact le_trans hbc hab
  have htotal : ∀ a b : α, ((fun x y => decide (key y ≤ key x)) a b ||
      (fun x y => decide (key y ≤ key x)) b a) = true := by
    intro a b
    simp only [Bool.or_eq_true, decide_eq_true_eq]
    exact le_total (key b) (key a)
  have hs := List.sorted_mergeSort htrans htotal l
  have hs2 : (l.mergeSort (fun x y => decide (key y ≤ key x))).Pairwise
      (fun a b => key b ≤ key a) :=
    hs.imp (fun h => by simpa using h)
  exact List.Pairwise.sublist (List.take_sublist n _) hs2

theorem sqlWindow_length_le {α : Type} (key : α → String) (n : Nat) (l : List α) :
    (sqlWindow key n l).length ≤ n := by
  simp only [sqlWindow]
  exact List.length_take_le n _

theorem sqlWindow_length {α : Type} (key : α → String) (n : Nat) (l : List α) :
    (sqlWindow key n l).length = min n l.length := by
  simp [sqlWindow, List.length_take, (List.mergeSort_perm l _).length_eq]

theorem sqlWindow_mem {α : Type} {key : α → String} {n : Nat} {l : List α} {a : α}
    (h : a ∈ sqlWindow key n l) : a ∈ l :=
  ((List.mergeSort_perm l _).mem_iff).1 ((List.take_sublist n _).mem h)

theorem sorted_window_map {α β : Type} (key : α → String) (date : β → String)
    (f : α → β) (hf : ∀ a, date (f a) = key a) (n : Nat) (l : List α) :
    ((sqlWindow key n l).map f).Pairwise (fun a b => date b ≤ date a) ∧
      ((sqlWindow key n l).map f).length ≤ n := by
  constructor
  · rw [List.pairwise_map]
    refine (sqlWindow_sorted key n l).imp ?_
    intro a b h
    rw [hf, hf]
    exact h
  · rw [List.length_map]
    exact sqlWindow_length_le key n l

/-! ## The claims -/

/-- C1: for every duration string of the form HH:MM:SS the derived seconds
value is exactly H*3600 + M*60 + S; a SQL NULL, the empty string and
unparsable strings derive null seconds and null hours, without error; where
an hours value is derived it is seconds/3600 rounded to 2 decimals, null
propagating, and the per-row sleep record carries exactly these derived
values. -/
theorem c1_time_normalization :
    (∀ h m s : Nat, parseHMS (fmtHMS h m s) = some (h * 3600 + m * 60 + s)) ∧
    (∀ h m s : Nat,
      durSeconds (some (fmtHMS h m s)) = some (h * 3600 + m * 60 + s) ∧
      durHours (some (fmtHMS h m s)) =
        some (round2 (((h * 3600 + m * 60 + s : Nat) : ℚ) / 3600))) ∧
    (parseHMS "" = none ∧ durSeconds (some "") = none ∧ durHours (some "") = none) ∧
    (parseHMS "abc" = none ∧ parseHMS "1:2" = none ∧ parseHMS "1:2:x" = none ∧
      parseHMS "1:2:3:4" = none) ∧
    (durSeconds none = none ∧ durHours none = none) ∧
    (∀ v : Option String,
      durHours v = (durSeconds v).map (fun n => round2 ((n : ℚ) / 3600))) ∧
    (∀ r : SleepRow,
      (sleepRecordOf r).total_sleep_seconds = durSeconds r.total_sleep ∧
      (sleepRecordOf r).total_sleep_hours = durHours r.total_sleep ∧
      (sleepRecordOf r).deep_sleep_seconds = durSeconds r.deep_sleep ∧
      (sleepRecordOf r).awake_hours = durHours r.awake) := by
  refine ⟨parseHMS_fmtHMS, ?_, ⟨rfl, rfl, rfl⟩, ⟨rfl, rfl, rfl, rfl⟩, ⟨rfl, rfl⟩,
    fun v => rfl, fun r => ⟨rfl, rfl, rfl, rfl⟩⟩
  intro h m s
  constructor
  · simp [durSeconds, parseHMS_fmtHMS]
  · simp [durHours, durSeconds, parseHMS_fmtHMS]

/-- C5: schema introspection is total: `_get_columns` returns the column list
the PRAGMA yields on a known table, and the empty list, never a failure, when
the PRAGMA projection fails, in particular whenever the table does not
exist. -/
theorem c5_columns_total (db : DB) (table : String) :
    (∀ cols, pragmaTableInfo db table = .ok cols → _get_columns db table = cols) ∧
    (∀ e, pragmaTableInfo db table = .error e → _get_columns db table = []) ∧
    (_table_exists db table = false → _get_columns db table = []) := by
  unfold _get_columns _table_exists pragmaTableInfo
  cases hl : db.schema.lookup table with
  | none =>
    refine ⟨?_, ?_, ?_⟩
    · intro cols hc
      exact Except.noConfusion hc
    · intro e he
      rfl
    · intro hx
      rfl
  | some cols =>
    refine ⟨?_, ?_, ?_⟩
    · intro cols2 hc
      exact Except.ok.inj hc
    · intro e he
      exact Except.noConfusion he
    · intro hx
      simp at hx

/-- C2: the stress reader returns exactly the daily_summary rows whose
stress_avg is non-null, within the window: no returned record has a null
stress_avg, the length is the count of non-null rows capped by the limit, and
every returned record is the projection of a stored non-null row. -/
theorem c2_stress_non_null (db : DB) (days : Nat) (out : List StressRecord)
    (h : fetch_stress db days = .ok out) :
    (∀ rec ∈ out, rec.stress_avg.isSome) ∧
    out.length = min days (db.daily_summary.countP (fun r => r.stress_avg.isSome)) ∧
    (∀ rec ∈ out, ∃ row, row ∈ db.daily_summary ∧ row.stress_avg.isSome ∧
      rec = { date := row.day, stress_avg := row.stress_avg }) := by
  simp only [fetch_stress] at h
  split at h
  · exact Except.noConfusion h
  · split at h
    · exact Except.noConfusion h
    · replace h := Except.ok.inj h
      subst h
      refine ⟨?_, ?_, ?_⟩
      · intro rec hrec
        rcases List.mem_map.1 hrec with ⟨row, hrow, rfl⟩
        exact (List.mem_filter.1 (sqlWindow_mem hrow)).2
      · rw [List.length_map, sqlWindow_length, List.countP_eq_length_filter]
      · intro rec hrec
        rcases List.mem_map.1 hrec with ⟨row, hrow, rfl⟩
        rcases List.mem_filter.1 (sqlWindow_mem hrow) with ⟨hin, hsome⟩
        exact ⟨row, hin, hsome, rfl⟩

/-- C3: in every record the exercise reader returns, total_activity_seconds
is the sum of the moderate and vigorous seconds with null taken as 0, and is
itself never null. -/
theorem c3_exercise_total (db : DB) (days : Nat) (out : List ExerciseRecord)
    (h : fetch_exercise db days = .ok out) :
    ∀ rec ∈ out,
      rec.total_activity_seconds =
        some (rec.moderate_activity_seconds.getD 0 +
              rec.vigorous_activity_seconds.getD 0) ∧
      rec.total_activity_seconds.isSome := by
  simp only [fetch_exercise] at h
  split at h
  · exact Except.noConfusion h
  · split at h
    · exact Except.noConfusion h
    · replace h := Except.ok.inj h
      subst h
      intro rec hrec
      rcases List.mem_map.1 hrec with ⟨row, hrow, rfl⟩
      exact ⟨rfl, rfl⟩

/-- C4: every metric reader result is sorted by date descending
(record[i].date >= record[i+1].date for every valid i) and no longer than the
row limit: 30 for the daily summary, the days parameter (default 30) for the
other four readers. -/
theorem c4_ordering_and_window (db : DB) (days : Nat) :
    (∀ out, fetch_daily_summary db = .ok out →
      out.Sorted (fun a b => b.date ≤ a.date) ∧ out.length ≤ 30) ∧
    (∀ out, fetch_sleep db days = .ok out →
      out.Sorted (fun a b => b.date ≤ a.date) ∧ out.length ≤ days) ∧
    (∀ out, fetch_steps db days = .ok out →
      out.Sorted (fun a b => b.date ≤ a.date) ∧ out.length ≤ days) ∧
    (∀ out, fetch_stress db days = .ok out →
      out.Sorted (fun a b => b.date ≤ a.date) ∧ out.length ≤ days) ∧
    (∀ out, fetch_exercise db days = .ok out →
      out.Sorted (fun a b => b.date ≤ a.date) ∧ out.length ≤ days) := by
  refine ⟨?_, ?_, ?_, ?_, ?_⟩
  · intro out h
    simp only [fetch_daily_summary] at h
    split at h
    · split at h
      · replace h := Except.ok.inj h
        subst h
        exact sorted_window_map _ _ _ (fun p => rfl) 30 _
      · exact Except.noConfusion h
    · split at h
      · replace h := Except.ok.inj h
        subst h
        exact sorted_window_map _ _ _ (fun r => rfl) 30 _
      · exact Except.noConfusion h
  · intro out h
    simp only [fetch_sleep] at h
    split at h
    · split at h
      · replace h := Except.ok.inj h
        subst h
        exact sorted_window_map _ _ _ (fun r => rfl) days _
      · exact Except.noConfusion h
    · exact Except.noConfusion h
  · intro out h
    simp only [fetch_steps] at h
    split at h
    · exact Except.noConfusion h
    · split at h
      · exact Except.noConfusion h
      · replace h := Except.ok.inj h
        subst h
        exact sorted_window_map _ _ _ (fun r => rfl) days _
  · intro out h
    simp only [fetch_stress] at h
    split at h
    · exact Except.noConfusion h
    · split at h
      · exact Except.noConfusion h
      · replace h := Except.ok.inj h
        subst h
        exact sorted_window_map _ _ _ (fun r => rfl) days _
  · intro out h
    simp only [fetch_exercise] at h
    split at h
    · exact Except.noConfusion h
    · split at h
      · exact Except.noConfusion h
      · replace h := Except.ok.inj h
        subst h
        exact sorted_window_map _ _ _ (fun r => rfl) days _

/-- C6: for every completed run of the sync process, the SyncResult has ok
true exactly when the exit code is 0, carries the exit code and captured
output and log path, and POST /api/update answers 200 when ok and 500
otherwise with the SyncResult as body. -/
theorem c6_update_status (p : ProcResult) (started ended : String) (dur : ℚ)
    (logPath : String) :
    (runGarmindb started ended dur logPath p).ok = decide (p.returncode = 0) ∧
    (runGarmindb started ended dur logPath p).returncode = p.returncode ∧
    (runGarmindb started ended dur logPath p).stdout = p.stdout ∧
    (runGarmindb started ended dur logPath p).stderr = p.stderr ∧
    (runGarmindb started ended dur logPath p).log = logPath ∧
    (runGarmindb started ended dur logPath p).started_at = started ∧
    (runGarmindb started ended dur logPath p).ended_at = ended ∧
    update_garmin_data (.ok p) started ended dur logPath =
      (if p.returncode = 0 then 200 else 500,
       .syncResult (runGarmindb started ended dur logPath p)) := by
  refine ⟨?_, rfl, rfl, rfl, rfl, rfl, rfl, ?_⟩
  · show (p.returncode == 0) = decide (p.returncode = 0)
    by_cases h : p.returncode = 0
    · simp [h]
    · simp [h]
  · by_cases h : p.returncode = 0
    · simp [update_garmin_data, runGarmindb, beq_iff_eq, h]
    · simp [update_garmin_data, runGarmindb, beq_iff_eq, h]

/-- C7 counterexample: a sync process that starts and exits with code 7 does
NOT get a successful (non-error) HTTP response: the handler answers 500. -/
theorem c7_counterexample :
    (update_garmin_data (.ok ⟨7, "", "boom"⟩) "s" "e" 0 "log").1 = 500 ∧
    ¬ (update_garmin_data (.ok ⟨7, "", "boom"⟩) "s" "e" 0 "log").1 = 200 := by
  constructor
  · rfl
  · decide

/-- C7 amended: a run that starts but exits non-zero is reported in-band, not
as an exception: the response still carries the full SyncResult with ok
false, but under HTTP status 500 (exactly as a launch failure is 500, though
the latter has no SyncResult body). -/
theorem c7_amended (p : ProcResult) (started ended : String) (dur : ℚ)
    (logPath : String) (h : p.returncode ≠ 0) :
    update_garmin_data (.ok p) started ended dur logPath =
      (500, .syncResult (runGarmindb started ended dur logPath p)) ∧
    (runGarmindb started ended dur logPath p).ok = false ∧
    (∀ e, update_garmin_data (.error e) started ended dur logPath =
      (500, .serverError e)) := by
  refine ⟨?_, ?_, fun e => rfl⟩
  · simp [update_garmin_data, runGarmindb, beq_iff_eq, h]
  · show (p.returncode == 0) = false
    simp [h]

/-- C8: erase without confirm=true (absent or any other value) is rejected
with 400 and leaves the store untouched, in both the table-clearing and the
file-clearing variant. -/
theorem c8_erase_unconfirmed (confirm : Option String) (hc : confirm ≠ some "true")
    (tables : List (String × List DailyRow)) (entries : List String) (garth : Bool) :
    erase_data (some tables) confirm =
      ((400, .err "You must pass confirm=true to erase data"), some tables) ∧
    routes_erase_data (some entries) garth confirm =
      ((400, .err "You must pass confirm=true to erase all data"), some entries, garth) := by
  constructor
  · show (if confirm ≠ some "true" then _ else _) = _
    rw [if_pos hc]
  · show (if confirm ≠ some "true" then _ else _) = _
    rw [if_pos hc]

/-- Characterization of the credentials section `get_config` returns. -/
theorem get_config_credentials (cfg : ConfigDoc) :
    (get_config cfg).credentials = cfg.credentials.map (fun c =>
      if c.password.isSome then { c with password := some "" } else c) := by
  unfold get_config
  cases hc : cfg.credentials with
  | none => simp [hc]
  | some c =>
    by_cases hp : c.password.isSome
    · simp [hp]
    · simp [hp, hc]

/-- C9: the GET /api/config response never contains a non-empty password:
whenever the stored document has a credentials section with a password
present, the response carries that section with the password blanked. -/
theorem c9_password_redaction (cfg : ConfigDoc) :
    (∀ c, cfg.credentials = some c → c.password.isSome →
      (get_config cfg).credentials = some { c with password := some "" }) ∧
    (∀ c s, (get_config cfg).credentials = some c → c.password = some s → s = "") := by
  refine ⟨?_, ?_⟩
  · intro c hc hp
    rw [get_config_credentials, hc]
    simp [hp]
  · intro c s hc hp
    rw [get_config_credentials] at hc
    cases hcc : cfg.credentials with
    | none =>
      rw [hcc] at hc
      exact Option.noConfusion hc
    | some c0 =>
      rw [hcc] at hc
      simp only [Option.map_some'] at hc
      replace hc := Option.some.inj hc
      by_cases hp0 : c0.password.isSome
      · rw [if_pos hp0] at hc
        rw [← hc] at hp
        exact (Option.some.inj hp).symm
      · rw [if_neg hp0] at hc
        rw [← hc] at hp
        rw [hp] at hp0
        exact absurd rfl hp0

/-- C10: in both erase variants the existence guard runs first: on an absent
store the response is 503 for every confirmation value, in particular a
missing one, and a 400 response occurs only when the store exists. -/
theorem c10_erase_guard_order :
    (∀ confirm, (erase_data none confirm).1.1 = 503 ∧
      ∀ garth, (routes_erase_data none garth confirm).1.1 = 503) ∧
    (∀ dbFile confirm, (erase_data dbFile confirm).1.1 = 400 → dbFile.isSome) ∧
    (∀ root garth confirm, (routes_erase_data root garth confirm).1.1 = 400 →
      root.isSome) := by
  refine ⟨fun confirm => ⟨rfl, fun garth => rfl⟩, ?_, ?_⟩
  · intro dbFile confirm h
    cases dbFile with
    | none => simp [erase_data] at h
    | some tables => rfl
  · intro root garth confirm h
    cases root with
    | none => simp [routes_erase_data] at h
    | some entries => rfl

/-! ## Concrete example data for the witnesses -/

/-- The full daily_summary column list of a current-schema installation. -/
def egDailyCols : List String :=
  ["day", "steps", "rhr", "stress_avg", "step_goal", "moderate_activity_time",
   "vigorous_activity_time", "intensity_time_goal", "distance", "calories_active",
   "calories_total"]

/-- A daily row without a stress reading. -/
def egRow1 : DailyRow :=
  { day := "2025-01-01", steps := some 1000, rhr := some 50, stress_avg := none,
    step_goal := some 8000, moderate_activity_time := some "00:10:00",
    vigorous_activity_time := none, intensity_time_goal := some "01:00:00",
    distance := some 2, calories_active := some 300, calories_total := some 2000 }

/-- A daily row with a stress reading. -/
def egRow2 : DailyRow :=
  { day := "2025-01-02", steps := some 2000, rhr := some 52, stress_avg := some 30,
    step_goal := some 8000, moderate_activity_time := some "00:20:00",
    vigorous_activity_time := some "00:05:00", intensity_time_goal := some "01:00:00",
    distance := some 3, calories_active := some 400, calories_total := some 2100 }

/-- A sleep row. -/
def egSleepRow : SleepRow :=
  { day := "2025-01-02", total_sleep := some "07:30:00", deep_sleep := some "01:00:00",
    light_sleep := some "05:00:00", rem_sleep := some "01:30:00", awake := none,
    avg_spo2 := some 95, avg_rr := some 14, avg_stress := some 20, score := some 80,
    qualifier := some "GOOD" }

/-- A small database with all three tables present. -/
def egDB : DB :=
  { schema := [("daily_summary", egDailyCols), ("sleep", sleepQueryCols),
      ("sleep_summary", ["day", "sleep_seconds"])],
    daily_summary := [egRow1, egRow2],
    sleep := [egSleepRow],
    sleep_summary := [{ day := "2025-01-02", sleep_seconds := some 27000 }] }

/-- Witness for C2 at the example database. -/
theorem c2_stress_non_null_witness :
    fetch_stress egDB 30 = .ok [{ date := "2025-01-02", stress_avg := some 30 }] ∧
    ∀ rec ∈ [({ date := "2025-01-02", stress_avg := some 30 } : StressRecord)],
      rec.stress_avg.isSome := by
  have h : fetch_stress egDB 30 = .ok [{ date := "2025-01-02", stress_avg := some 30 }] := by
    simp [fetch_stress, egDB, egRow1, egRow2, egDailyCols, _table_exists, _get_columns,
      pragmaTableInfo, sqlWindow, List.mergeSort, List.merge, List.lookup]
  exact ⟨h, (c2_stress_non_null egDB 30 _ h).1⟩

/-- Witness for C3 at the example database. -/
theorem c3_exercise_total_witness :
    (∃ out, fetch_exercise egDB 30 = .ok out ∧
      ∀ rec ∈ out,
        rec.total_activity_seconds =
          some (rec.moderate_activity_seconds.getD 0 +
                rec.vigorous_activity_seconds.getD 0) ∧
        rec.total_activity_seconds.isSome) := by
  have h05 : parseHMS "00:05:00" = some 300 := rfl
  have h10 : parseHMS "00:10:00" = some 600 := rfl
  have h20 : parseHMS "00:20:00" = some 1200 := rfl
  have h60 : parseHMS "01:00:00" = some 3600 := rfl
  have h : fetch_exercise egDB 30 = .ok
      [exerciseRecordOf true true true egRow2, exerciseRecordOf true true true egRow1] := by
    simp [fetch_exercise, egDB, egDailyCols, _table_exists, _get_columns,
      pragmaTableInfo, sqlWindow, List.mergeSort, List.merge, List.lookup, egRow1, egRow2]
    decide
  exact ⟨_, h, c3_exercise_total egDB 30 _ h⟩

/-- Witness for C4 at the example database: all five readers succeed and the
theorem yields sortedness and the window bound for each. -/
theorem c4_ordering_and_window_witness :
    (∃ out, fetch_daily_summary egDB = .ok out ∧
      out.Sorted (fun a b => b.date ≤ a.date) ∧ out.length ≤ 30) ∧
    (∃ out, fetch_sleep egDB 30 = .ok out ∧
      out.Sorted (fun a b => b.date ≤ a.date) ∧ out.length ≤ 30) ∧
    (∃ out, fetch_steps egDB 30 = .ok out ∧
      out.Sorted (fun a b => b.date ≤ a.date) ∧ out.length ≤ 30) ∧
    (∃ out, fetch_stress egDB 30 = .ok out ∧
      out.Sorted (fun a b => b.date ≤ a.date) ∧ out.length ≤ 30) ∧
    (∃ out, fetch_exercise egDB 30 = .ok out ∧
      out.Sorted (fun a b => b.date ≤ a.date) ∧ out.length ≤ 30) := by
  have hds : fetch_daily_summary egDB = .ok
      [{ date := "2025-01-02", steps := some 2000, restingHeartRate := some 52,
         sleepSeconds := some 27000 },
       { date := "2025-01-01", steps := some 1000, restingHeartRate := some 50,
         sleepSeconds := none }] := by
    simp [fetch_daily_summary, egDB, egDailyCols, _table_exists, _get_columns, _col_exists,
      pragmaTableInfo, sqlWindow, List.mergeSort, List.merge, List.lookup, List.contains,
      List.elem, leftJoinSleep, egRow1, egRow2]
    decide
  have hsl : fetch_sleep egDB 30 = .ok [sleepRecordOf egSleepRow] := by
    simp [fetch_sleep, egDB, egDailyCols, sleepQueryCols, _table_exists, _get_columns,
      _col_exists, pragmaTableInfo, sqlWindow, List.mergeSort, List.merge, List.lookup,
      List.contains, List.elem, List.all]
  have hst : fetch_steps egDB 30 = .ok
      [{ date := "2025-01-02", steps := some 2000, step_goal := some 8000 },
       { date := "2025-01-01", steps := some 1000, step_goal := some 8000 }] := by
    simp [fetch_steps, egDB, egDailyCols, _table_exists, _get_columns, _col_exists,
      pragmaTableInfo, sqlWindow, List.mergeSort, List.merge, List.lookup, List.contains,
      List.elem, egRow1, egRow2]
    decide
  have hsr : fetch_stress egDB 30 = .ok [{ date := "2025-01-02", stress_avg := some 30 }] := by
    simp [fetch_stress, egDB, egDailyCols, _table_exists, _get_columns, _col_exists,
      pragmaTableInfo, sqlWindow, List.mergeSort, List.merge, List.lookup, List.contains,
      List.elem, egRow1, egRow2]
  have hex : fetch_exercise egDB 30 = .ok
      [exerciseRecordOf true true true egRow2, exerciseRecordOf true true true egRow1] := by
    simp [fetch_exercise, egDB, egDailyCols, _table_exists, _get_columns, _col_exists,
      pragmaTableInfo, sqlWindow, List.mergeSort, List.merge, List.lookup, List.contains,
      List.elem, egRow1, egRow2]
    decide
  refine ⟨⟨_, hds, (c4_ordering_and_window egDB 30).1 _ hds⟩,
    ⟨_, hsl, (c4_ordering_and_window egDB 30).2.1 _ hsl⟩,
    ⟨_, hst, (c4_ordering_and_window egDB 30).2.2.1 _ hst⟩,
    ⟨_, hsr, (c4_ordering_and_window egDB 30).2.2.2.1 _ hsr⟩,
    ⟨_, hex, (c4_ordering_and_window egDB 30).2.2.2.2 _ hex⟩⟩

/-- Witness for C5 at the example database and an unknown table. -/
theorem c5_columns_total_witness :
    _table_exists egDB "nope" = false ∧ _get_columns egDB "nope" = [] := by
  have h : _table_exists egDB "nope" = false := by
    simp [_table_exists, egDB, List.lookup]
  exact ⟨h, (c5_columns_total egDB "nope").2.2 h⟩

/-- Witness for the amended C7 at exit code 7. -/
theorem c7_amended_witness :
    (7 : Int) ≠ 0 ∧
    update_garmin_data (.ok ⟨7, "", "boom"⟩) "s" "e" 0 "log" =
      (500, .syncResult (runGarmindb "s" "e" 0 "log" ⟨7, "", "boom"⟩)) := by
  refine ⟨by decide, (c7_amended ⟨7, "", "boom"⟩ "s" "e" 0 "log" (by decide)).1⟩

/-- Witness for C8 with a missing confirmation flag. -/
theorem c8_erase_unconfirmed_witness :
    (none : Option String) ≠ some "true" ∧
    erase_data (some [("daily_summary", [egRow1])]) none =
      ((400, .err "You must pass confirm=true to erase data"),
       some [("daily_summary", [egRow1])]) := by
  refine ⟨by decide, (c8_erase_unconfirmed none (by decide) [("daily_summary", [egRow1])]
    ["DBs"] true).1⟩

/-- Credentials with a stored password, for the C9 witness. -/
def egCred : Credentials :=
  { user := some "alice", password := some "hunter2", secure_password := none,
    password_file := none }

/-- A stored config document with a password, for the C9 witness. -/
def egCfg : ConfigDoc := { credentials := some egCred, rest := "data" }

/-- Witness for C9 at a document with a stored password. -/
theorem c9_password_redaction_witness :
    egCfg.credentials = some egCred ∧ egCred.password.isSome = true ∧
    (get_config egCfg).credentials = some { egCred with password := some "" } := by
  exact ⟨rfl, rfl, (c9_password_redaction egCfg).1 egCred rfl rfl⟩

/-- Witness for C10: an absent store with a missing confirmation flag still
answers 503 in both variants, and a 400 response implies the store exists. -/
theorem c10_erase_guard_order_witness :
    (erase_data none none).1.1 = 503 ∧
    (routes_erase_data none true none).1.1 = 503 ∧
    (some [("daily_summary", [egRow1])] :
      Option (List (String × List DailyRow))).isSome = true ∧
    (some ["DBs"] : Option (List String)).isSome = true := by
  refine ⟨(c10_erase_guard_order.1 none).1, (c10_erase_guard_order.1 none).2 true,
    c10_erase_guard_order.2.1 (some [("daily_summary", [egRow1])]) none (by decide),
    c10_erase_guard_order.2.2 (some ["DBs"]) true none (by decide)⟩
